import Mathlib

/-!
# Verification of rbin (src/main.rs)

A shallow embedding of the paste-storage core of the `rbin` pastebin
service: identifier generation (`Alphanumeric.sample_string`), identifier
validation and paste retrieval (`retrieve_paste`), and paste submission
(`handle_paste_submission`).  The filesystem is modelled as an association
list from path strings to file entries; an entry can also be marked
inaccessible to model filesystem errors other than "not found"
(permissions, device faults).  Handlers additionally return an event trace
recording path construction, filesystem reads, field drains/reads and
writes, so that ordering properties ("validation fails closed before any
filesystem access") are statable.
-/

namespace Rbin

/-- `ID_LENGTH` from main.rs: length of generated paste identifiers. -/
def ID_LENGTH : Nat := 6

/-- `MAX_BODY_SIZE` from main.rs: request-body limit enforced by the
transport layer (10 MB). -/
def MAX_BODY_SIZE : Nat := 1024 * 1024 * 10

/-- UTF-8 encoded size of a character, in bytes.  Mirrors the UTF-8
encoding used by Rust `String`. -/
def charUtf8Size (c : Char) : Nat :=
  if c.toNat < 0x80 then 1
  else if c.toNat < 0x800 then 2
  else if c.toNat < 0x10000 then 3
  else 4

/-- Rust `String::len` / `str::len`: the length of the string in UTF-8
bytes (not in characters). -/
def rustByteLen (s : String) : Nat :=
  (s.data.map charUtf8Size).sum

/-- Models the Rust standard-library function `char::is_alphanumeric`
(`is_alphabetic() || is_numeric()`, a Unicode-wide property).  The model
is exact on the Basic Latin and Latin-1 Supplement blocks (U+0000 to
U+00FF): besides ASCII letters and digits it accepts the Latin-1
alphabetic letters U+00AA, U+00B5, U+00BA, U+00C0-U+00D6, U+00D8-U+00F6,
U+00F8-U+00FF and the numeric characters U+00B2, U+00B3, U+00B9,
U+00BC-U+00BE.  Characters above U+00FF (many of which Rust also accepts)
are mapped to `false`; theorems whose truth depends on the exact extent of
the predicate restrict their strings to the modelled range. -/
def rustIsAlphanumeric (c : Char) : Bool :=
  (0x30 ≤ c.toNat && c.toNat ≤ 0x39) ||
  (0x41 ≤ c.toNat && c.toNat ≤ 0x5A) ||
  (0x61 ≤ c.toNat && c.toNat ≤ 0x7A) ||
  c.toNat == 0xAA || c.toNat == 0xB2 || c.toNat == 0xB3 ||
  c.toNat == 0xB5 || c.toNat == 0xB9 || c.toNat == 0xBA ||
  (0xBC ≤ c.toNat && c.toNat ≤ 0xBE) ||
  (0xC0 ≤ c.toNat && c.toNat ≤ 0xD6) ||
  (0xD8 ≤ c.toNat && c.toNat ≤ 0xF6) ||
  (0xF8 ≤ c.toNat && c.toNat ≤ 0xFF)

/-- The specification's alphanumeric set `[A-Za-z0-9]`, written from the
spec's words for comparison with the code's `rustIsAlphanumeric`. -/
def specAlnumAscii (c : Char) : Bool :=
  (0x41 ≤ c.toNat && c.toNat ≤ 0x5A) ||
  (0x61 ≤ c.toNat && c.toNat ≤ 0x7A) ||
  (0x30 ≤ c.toNat && c.toNat ≤ 0x39)

/-- The 62-character set `rand::distributions::Alphanumeric` samples from
(`GEN_ASCII_STR_CHARSET` in rand). -/
def GEN_ASCII_STR_CHARSET : List Char :=
  "ABCDEFGHIJKLMNOPQRSTUVWXYZabcdefghijklmnopqrstuvwxyz0123456789".data

/-- One sampled character: the random draw `r` selects an element of the
62-character alphanumeric set. -/
def sampleChar (r : Nat) : Char :=
  GEN_ASCII_STR_CHARSET.getD (r % 62) 'A'

/-- The characters produced by `Alphanumeric.sample_string`: position `i`
onwards, `n` characters, each drawn from the alphanumeric set by the
random stream `rng`. -/
def sampleChars (rng : Nat → Nat) : Nat → Nat → List Char
  | _, 0 => []
  | i, n + 1 => sampleChar (rng i) :: sampleChars rng (i + 1) n

/-- `Alphanumeric.sample_string(&mut rand::thread_rng(), len)` from
main.rs line 244, with the thread RNG modelled as a stream `rng` of draws:
a string of `len` characters each selected from the 62-character
alphanumeric set. -/
def sample_string (rng : Nat → Nat) (len : Nat) : String :=
  ⟨sampleChars rng 0 len⟩

/-- A filesystem entry: a regular file with content, or a location that
exists but cannot be read/written (modelling filesystem errors other than
"not found": permissions, I/O faults). -/
inductive Entry : Type
  | file (content : String)
  | inaccessible
deriving DecidableEq, Repr

/-- The filesystem: an association list from path to entry; the first
binding for a path is its current state, absent paths are absent files. -/
def Fs : Type := List (String × Entry)

instance : DecidableEq Fs := inferInstanceAs (DecidableEq (List (String × Entry)))

/-- Rust `std::io::ErrorKind`, restricted to the distinction main.rs makes:
`NotFound` versus everything else. -/
inductive IoErrorKind : Type
  | notFound
  | permissionDenied
deriving DecidableEq, Repr

/-- Look up the current entry at a path. -/
def fsLookup : Fs → String → Option Entry
  | [], _ => none
  | (q, e) :: rest, p => if q == p then some e else fsLookup rest p

/-- `tokio::fs::write(path, content)`: creates or overwrites the file at
`path` with `content` verbatim; fails with a filesystem error when the
location is inaccessible. -/
def fsWrite (fs : Fs) (p : String) (content : String) : Except IoErrorKind Fs :=
  match fsLookup fs p with
  | some Entry.inaccessible => Except.error IoErrorKind.permissionDenied
  | _ => Except.ok ((p, Entry.file content) :: fs)

/-- `tokio::fs::read_to_string(path)`: returns the file's content, a
`NotFound` error when no file exists at `path`, and another error kind
when the location is inaccessible. -/
def readToString (fs : Fs) (p : String) : Except IoErrorKind String :=
  match fsLookup fs p with
  | none => Except.error IoErrorKind.notFound
  | some (Entry.file c) => Except.ok c
  | some Entry.inaccessible => Except.error IoErrorKind.permissionDenied

/-- `state.paste_dir.join(format!("{}.txt", id))` from main.rs lines 245
and 279: the storage path for an identifier (validated ids contain no path
separators, so `join` is plain concatenation). -/
def pastePath (dir id : String) : String :=
  dir ++ "/" ++ id ++ ".txt"

/-- An HTTP response as far as the claims see it: status code and body. -/
structure HttpResponse : Type where
  status : Nat
  body : String
deriving DecidableEq, Repr

/-- The reject condition of main.rs line 274:
`id.len() != ID_LENGTH || !id.chars().all(char::is_alphanumeric)`
(`len()` is the UTF-8 byte length). -/
def idFormatRejected (id : String) : Bool :=
  rustByteLen id != ID_LENGTH || !(id.data.all rustIsAlphanumeric)

/-- Observable read-path events: a storage path being constructed, and a
filesystem call on a path. -/
inductive ReadEvent : Type
  | pathConstructed (p : String)
  | fsRead (p : String)
deriving DecidableEq, Repr

/-- `retrieve_paste` (main.rs lines 272-313): the GET `/:id` handler.
Validates the identifier first and returns 400 on a malformed id without
constructing a path or touching the filesystem (empty trace); otherwise
builds the storage path, reads it, and maps the result to
200 / 404 (`ErrorKind::NotFound`) / 500 (any other error).  Returns the
response together with the trace of path/filesystem events. -/
def retrieve_paste (dir : String) (fs : Fs) (id : String) :
    HttpResponse × List ReadEvent :=
  if idFormatRejected id then
    (⟨400, "Invalid paste ID format."⟩, [])
  else
    let file_path := pastePath dir id
    let trace := [ReadEvent.pathConstructed file_path, ReadEvent.fsRead file_path]
    match readToString fs file_path with
    | Except.ok content => (⟨200, content⟩, trace)
    | Except.error IoErrorKind.notFound =>
        (⟨404, "Paste '" ++ id ++ "' not found."⟩, trace)
    | Except.error _ => (⟨500, "Error retrieving paste."⟩, trace)

/-- One multipart form field: its name and the result of `field.text()`
(`none` models a text-decoding failure). -/
structure Field : Type where
  name : String
  text : Option String
deriving DecidableEq, Repr

/-- Observable submission events: a field's text being read, a field being
drained and ignored, a file being written. -/
inductive SubmitEvent : Type
  | textRead (name : String)
  | drained (name : String)
  | wrote (p : String) (content : String)
deriving DecidableEq, Repr

/-- Recognizes file-write events in a submission trace. -/
def isWriteEvent : SubmitEvent → Bool
  | SubmitEvent.wrote _ _ => true
  | _ => false

/-- Result of the field-scanning loop of `handle_paste_submission`. -/
inductive ScanOutcome : Type
  | found (content : String)
  | missing
  | failed
deriving DecidableEq, Repr

/-- The `while let Some(field) = multipart.next_field()` loop of main.rs
lines 204-226: fields named `"rbin"` have their text read (a decode
failure aborts with an error), the first one ends the loop; any other
field is drained and ignored. -/
def scanFields : List Field → ScanOutcome × List SubmitEvent
  | [] => (ScanOutcome.missing, [])
  | f :: rest =>
    if f.name == "rbin" then
      match f.text with
      | some t => (ScanOutcome.found t, [SubmitEvent.textRead f.name])
      | none => (ScanOutcome.failed, [SubmitEvent.textRead f.name])
    else
      let (o, evs) := scanFields rest
      (o, SubmitEvent.drained f.name :: evs)

/-- `handle_paste_submission` (main.rs lines 196-269): the POST `/`
handler.  Scans the multipart fields for the first `"rbin"` field; a
missing field or empty content yields 400; otherwise an identifier is
generated, the content is written to its storage path (failure yields
500), and on success the response is `200` with body
`"<scheme>://<host>/<id>"`, where scheme and host come from the
`X-Forwarded-Proto` and `Host` headers with defaults `"http"` and
`"localhost"`.  Returns the response, the resulting filesystem, and the
trace of submission events. -/
def handle_paste_submission (dir : String) (fs : Fs) (rng : Nat → Nat)
    (fields : List Field) (hostHdr schemeHdr : Option String) :
    HttpResponse × Fs × List SubmitEvent :=
  match scanFields fields with
  | (ScanOutcome.failed, evs) =>
      (⟨400, "Failed to read field data"⟩, fs, evs)
  | (ScanOutcome.missing, evs) =>
      (⟨400, "Missing 'rbin' form field"⟩, fs, evs)
  | (ScanOutcome.found content, evs) =>
    if content == "" then
      (⟨400, "Paste content cannot be empty"⟩, fs, evs)
    else
      let id := sample_string rng ID_LENGTH
      let file_path := pastePath dir id
      match fsWrite fs file_path content with
      | Except.error _ => (⟨500, "Failed to save paste"⟩, fs, evs)
      | Except.ok fs' =>
        let host := hostHdr.getD "localhost"
        let scheme := schemeHdr.getD "http"
        (⟨200, scheme ++ "://" ++ host ++ "/" ++ id⟩, fs',
          evs ++ [SubmitEvent.wrote file_path content])

/-! ## Helper lemmas -/

/-- Every character the generator can select is an ASCII alphanumeric
character, is accepted by `rustIsAlphanumeric`, and occupies one UTF-8
byte. -/
theorem sampleChar_props (r : Nat) :
    specAlnumAscii (sampleChar r) = true ∧
    rustIsAlphanumeric (sampleChar r) = true ∧
    charUtf8Size (sampleChar r) = 1 := by
  have h : r % 62 < 62 := Nat.mod_lt _ (by decide)
  have hall : ∀ k, k < 62 →
      specAlnumAscii (GEN_ASCII_STR_CHARSET.getD k 'A') = true ∧
      rustIsAlphanumeric (GEN_ASCII_STR_CHARSET.getD k 'A') = true ∧
      charUtf8Size (GEN_ASCII_STR_CHARSET.getD k 'A') = 1 := by decide
  exact hall _ h

/-- The generator produces exactly the requested number of characters. -/
theorem sampleChars_length (rng : Nat → Nat) :
    ∀ n i, (sampleChars rng i n).length = n := by
  intro n
  induction n with
  | zero => intro i; rfl
  | succ m ih => intro i; simp [sampleChars, ih]

/-- Any character-level predicate true of every selectable character holds
of every character the generator produces. -/
theorem sampleChars_all (rng : Nat → Nat) (P : Char → Bool)
    (hP : ∀ r, P (sampleChar r) = true) :
    ∀ n i, (sampleChars rng i n).all P = true := by
  intro n
  induction n with
  | zero => intro i; rfl
  | succ m ih => intro i; simp [sampleChars, hP, ih]

/-- An ASCII alphanumeric character occupies one UTF-8 byte. -/
theorem specAlnumAscii_utf8Size {c : Char} (h : specAlnumAscii c = true) :
    charUtf8Size c = 1 := by
  unfold specAlnumAscii at h
  simp only [Bool.or_eq_true, Bool.and_eq_true, decide_eq_true_eq] at h
  have hlt : c.toNat < 0x80 := by omega
  simp [charUtf8Size, hlt]

/-- ASCII alphanumeric characters are accepted by Rust's Unicode-wide
`char::is_alphanumeric`. -/
theorem specAlnumAscii_rust {c : Char} (h : specAlnumAscii c = true) :
    rustIsAlphanumeric c = true := by
  unfold specAlnumAscii at h
  unfold rustIsAlphanumeric
  simp only [Bool.or_eq_true, Bool.and_eq_true, decide_eq_true_eq, beq_iff_eq] at h ⊢
  omega

/-- A string all of whose characters occupy one UTF-8 byte has byte length
equal to its character count. -/
theorem rustByteLen_of_ascii (l : List Char)
    (h : ∀ c ∈ l, charUtf8Size c = 1) :
    (l.map charUtf8Size).sum = l.length := by
  induction l with
  | nil => rfl
  | cons c rest ih =>
      have hc := h c (by simp)
      have hrest := ih (fun d hd => h d (by simp [hd]))
      simp [hc, hrest]
      omega

/-- Scanning a field list whose first `"rbin"` field follows a prefix of
differently named fields reads exactly that field's text: the prefix is
drained, and no later field contributes an event. -/
theorem scanFields_found (pre post : List Field) (t : Option String)
    (hpre : ∀ f ∈ pre, f.name ≠ "rbin") :
    scanFields (pre ++ ⟨"rbin", t⟩ :: post) =
      (match t with
        | some s => ScanOutcome.found s
        | none => ScanOutcome.failed,
       pre.map (fun f => SubmitEvent.drained f.name) ++ [SubmitEvent.textRead "rbin"]) := by
  induction pre with
  | nil =>
      cases t with
      | some s => simp [scanFields]
      | none => simp [scanFields]
  | cons f rest ih =>
      have hf : (f.name == "rbin") = false := by
        simp only [beq_eq_false_iff_ne, ne_eq]
        exact hpre f (by simp)
      have hrest := ih (fun g hg => hpre g (by simp [hg]))
      simp [scanFields, hf, hrest]

/-- Scanning a field list with no `"rbin"` field drains every field and
reports the content missing. -/
theorem scanFields_missing (fields : List Field)
    (h : ∀ f ∈ fields, f.name ≠ "rbin") :
    scanFields fields =
      (ScanOutcome.missing, fields.map (fun f => SubmitEvent.drained f.name)) := by
  induction fields with
  | nil => rfl
  | cons f rest ih =>
      have hf : (f.name == "rbin") = false := by
        simp only [beq_eq_false_iff_ne, ne_eq]
        exact h f (by simp)
      have hrest := ih (fun g hg => h g (by simp [hg]))
      simp [scanFields, hf, hrest]

/-- A string of exactly `ID_LENGTH` ASCII alphanumeric characters passes
the read-path format check. -/
theorem idFormatRejected_of_specAlnum (s : String)
    (hlen : s.data.length = ID_LENGTH) (hall : s.data.all specAlnumAscii = true) :
    idFormatRejected s = false := by
  have hall' : ∀ c ∈ s.data, specAlnumAscii c = true := by
    simpa [List.all_eq_true] using hall
  have hbyte : rustByteLen s = ID_LENGTH := by
    unfold rustByteLen
    rw [rustByteLen_of_ascii s.data
      (fun c hc => specAlnumAscii_utf8Size (hall' c hc))]
    exact hlen
  have hrust : s.data.all rustIsAlphanumeric = true := by
    simp only [List.all_eq_true]
    exact fun c hc => specAlnumAscii_rust (hall' c hc)
  unfold idFormatRejected
  simp [hbyte, hrust]

/-- Reading back the path just written returns the written content. -/
theorem readToString_after_write (fs : Fs) (p content : String) :
    readToString ((p, Entry.file content) :: fs) p = Except.ok content := by
  simp [readToString, fsLookup]

/-! ## Claim theorems -/

/-- Claim C1: for every identifier and every content of length at most the
configured maximum (`MAX_BODY_SIZE`), a successful `write` of the content
to the identifier's storage path followed by a `read` of that path returns
exactly the written content. -/
theorem C1_write_read_roundtrip (dir id content : String) (fs fs' : Fs)
    (_hlen : rustByteLen content ≤ MAX_BODY_SIZE)
    (hw : fsWrite fs (pastePath dir id) content = Except.ok fs') :
    readToString fs' (pastePath dir id) = Except.ok content := by
  unfold fsWrite at hw
  split at hw
  · exact absurd hw (by simp)
  · cases hw
    exact readToString_after_write fs (pastePath dir id) content

/-- Witness for C1 at a concrete store, identifier and content. -/
theorem C1_write_read_roundtrip_witness :
    readToString [(pastePath "pastes" "abc123", Entry.file "hello")]
      (pastePath "pastes" "abc123") = Except.ok "hello" :=
  C1_write_read_roundtrip "pastes" "abc123" "hello" []
    [(pastePath "pastes" "abc123", Entry.file "hello")] (by decide) rfl

/-- Claim C2, counterexample: the five-character string `"aaaaé"` occupies six
UTF-8 bytes and every one of its characters is Unicode-alphanumeric, so
the code accepts it, although its length is not 6 and it contains a
character outside `[A-Za-z0-9]` — the claim's characterization says it
must be rejected. -/
theorem C2_validation_counterexample :
    idFormatRejected "aaaaé" = false ∧
    ("aaaaé".data.length == ID_LENGTH) = false ∧
    "aaaaé".data.all specAlnumAscii = false := by decide

/-- Claim C2 (amended): the read-path check rejects a candidate exactly
when its UTF-8 byte length differs from `ID_LENGTH` or some character
fails Rust's Unicode-wide `char::is_alphanumeric`; every string of exactly
`ID_LENGTH` characters drawn from `[A-Za-z0-9]` is still accepted. -/
theorem C2_validation_characterization (s : String) :
    (idFormatRejected s = false ↔
      rustByteLen s = ID_LENGTH ∧ s.data.all rustIsAlphanumeric = true) ∧
    (s.data.length = ID_LENGTH → s.data.all specAlnumAscii = true →
      idFormatRejected s = false) := by
  constructor
  · unfold idFormatRejected
    constructor
    · intro h
      simp only [Bool.or_eq_false_iff, bne_eq_false_iff_eq, Bool.not_eq_false'] at h
      exact h
    · intro h
      simp only [Bool.or_eq_false_iff, bne_eq_false_iff_eq, Bool.not_eq_false']
      exact h
  · exact idFormatRejected_of_specAlnum s

/-- Witness for C2 (amended) at a concrete well-formed identifier. -/
theorem C2_validation_characterization_witness :
    idFormatRejected "abc123" = false :=
  (C2_validation_characterization "abc123").2 (by decide) (by decide)

/-- Claim C3: every identifier the generator produces has exactly
`ID_LENGTH` characters, each drawn from the alphanumeric set
`[A-Za-z0-9]`. -/
theorem C3_generated_id_shape (rng : Nat → Nat) :
    (sample_string rng ID_LENGTH).data.length = ID_LENGTH ∧
    (sample_string rng ID_LENGTH).data.all specAlnumAscii = true := by
  unfold sample_string
  exact ⟨sampleChars_length rng ID_LENGTH 0,
    sampleChars_all rng specAlnumAscii (fun r => (sampleChar_props r).1) ID_LENGTH 0⟩

/-- Claim C5: whenever the supplied identifier fails validation, the read
handler answers 400 and its event trace is empty — no storage path is
constructed and no filesystem call is made. -/
theorem C5_fail_closed (dir : String) (fs : Fs) (id : String)
    (hinvalid : idFormatRejected id = true) :
    (retrieve_paste dir fs id).1.status = 400 ∧
    (retrieve_paste dir fs id).2 = [] := by
  unfold retrieve_paste
  rw [if_pos hinvalid]
  exact ⟨rfl, rfl⟩

/-- Witness for C5 at a path-traversal attempt. -/
theorem C5_fail_closed_witness :
    (retrieve_paste "pastes" [] "../abc").1.status = 400 ∧
    (retrieve_paste "pastes" [] "../abc").2 = [] :=
  C5_fail_closed "pastes" [] "../abc" (by decide)

/-- Claim C4: for a well-formed identifier, the read handler has exactly
three caller-distinguishable outcomes: 200 with the stored content when a
file backs the identifier's path, 404 exactly when no storage location for
it exists (in particular for every well-formed identifier never written),
and 500 for any other filesystem error. -/
theorem C4_read_outcomes (dir : String) (fs : Fs) (id : String)
    (hvalid : idFormatRejected id = false) :
    (∀ c, fsLookup fs (pastePath dir id) = some (Entry.file c) →
      (retrieve_paste dir fs id).1 = ⟨200, c⟩) ∧
    (fsLookup fs (pastePath dir id) = none →
      (retrieve_paste dir fs id).1 = ⟨404, "Paste '" ++ id ++ "' not found."⟩) ∧
    (fsLookup fs (pastePath dir id) = some Entry.inaccessible →
      (retrieve_paste dir fs id).1 = ⟨500, "Error retrieving paste."⟩) := by
  refine ⟨fun c hc => ?_, fun hn => ?_, fun hi => ?_⟩
  · simp [retrieve_paste, hvalid, readToString, hc]
  · simp [retrieve_paste, hvalid, readToString, hn]
  · simp [retrieve_paste, hvalid, readToString, hi]

/-- Witness for C4: a well-formed identifier never written yields 404. -/
theorem C4_read_outcomes_witness :
    (retrieve_paste "pastes" [] "abc123").1 =
      ⟨404, "Paste '" ++ "abc123" ++ "' not found."⟩ :=
  (C4_read_outcomes "pastes" [] "abc123" (by decide)).2.1 rfl

/-- Claim C6: a submission whose first `"rbin"` field is present but empty
is answered with 400, the filesystem is unchanged, and no write event
occurs — `write` is never invoked. -/
theorem C6_empty_content_rejected (dir : String) (fs : Fs) (rng : Nat → Nat)
    (hostHdr schemeHdr : Option String) (pre post : List Field)
    (hpre : ∀ f ∈ pre, f.name ≠ "rbin") :
    (handle_paste_submission dir fs rng (pre ++ ⟨"rbin", some ""⟩ :: post)
      hostHdr schemeHdr).1.status = 400 ∧
    (handle_paste_submission dir fs rng (pre ++ ⟨"rbin", some ""⟩ :: post)
      hostHdr schemeHdr).2.1 = fs ∧
    ((handle_paste_submission dir fs rng (pre ++ ⟨"rbin", some ""⟩ :: post)
      hostHdr schemeHdr).2.2.all (fun e => !isWriteEvent e)) = true := by
  have hscan := scanFields_found pre post (some "") hpre
  unfold handle_paste_submission
  rw [hscan]
  refine ⟨rfl, rfl, ?_⟩
  simp [isWriteEvent]

/-- Witness for C6 at a concrete submission with one ignored field. -/
theorem C6_empty_content_rejected_witness :
    (handle_paste_submission "pastes" [] (fun _ => 0)
      ([⟨"other", some "y"⟩] ++ ⟨"rbin", some ""⟩ :: []) none none).1.status = 400 ∧
    (handle_paste_submission "pastes" [] (fun _ => 0)
      ([⟨"other", some "y"⟩] ++ ⟨"rbin", some ""⟩ :: []) none none).2.1 = ([] : Fs) :=
  ⟨(C6_empty_content_rejected "pastes" [] (fun _ => 0) none none
      [⟨"other", some "y"⟩] [] (by decide)).1,
   (C6_empty_content_rejected "pastes" [] (fun _ => 0) none none
      [⟨"other", some "y"⟩] [] (by decide)).2.1⟩

/-- Claim C9: every identifier the generator can produce passes read-path
validation — its byte length is `ID_LENGTH` and all characters are
alphanumeric — so a retrieval of a freshly issued identifier is never
answered with 400. -/
theorem C9_generated_id_validates (rng : Nat → Nat) (dir : String) (fs : Fs) :
    idFormatRejected (sample_string rng ID_LENGTH) = false ∧
    ((retrieve_paste dir fs (sample_string rng ID_LENGTH)).1.status == 400) = false := by
  have hall : ∀ c ∈ (sample_string rng ID_LENGTH).data, specAlnumAscii c = true := by
    have := sampleChars_all rng specAlnumAscii (fun r => (sampleChar_props r).1) ID_LENGTH 0
    simpa [sample_string, List.all_eq_true] using this
  have hlen : (sample_string rng ID_LENGTH).data.length = ID_LENGTH := by
    simpa [sample_string] using sampleChars_length rng ID_LENGTH 0
  have hvalid : idFormatRejected (sample_string rng ID_LENGTH) = false :=
    idFormatRejected_of_specAlnum (sample_string rng ID_LENGTH) hlen
      (by simpa [List.all_eq_true] using hall)
  refine ⟨hvalid, ?_⟩
  unfold retrieve_paste
  rw [if_neg (by simp [hvalid])]
  cases hread : readToString fs (pastePath dir (sample_string rng ID_LENGTH)) with
  | ok c => simp [hread]
  | error e => cases e <;> simp [hread]

/-- Claim C7: the submission handler's outcome mapping.  With no `"rbin"`
field the response is 400; with the first `"rbin"` field empty it is 400;
with non-empty content and a successful write it is 200 with body
`"<scheme>://<host>/<id>"` for the freshly generated identifier; and when
the write fails it is 500. -/
theorem C7_post_outcome_mapping (dir : String) (fs : Fs) (rng : Nat → Nat)
    (fields : List Field) (hostHdr schemeHdr : Option String) :
    ((∀ f ∈ fields, f.name ≠ "rbin") →
      (handle_paste_submission dir fs rng fields hostHdr schemeHdr).1.status = 400) ∧
    (∀ pre post, (∀ f ∈ pre, f.name ≠ "rbin") →
      fields = pre ++ ⟨"rbin", some ""⟩ :: post →
      (handle_paste_submission dir fs rng fields hostHdr schemeHdr).1.status = 400) ∧
    (∀ pre post t, (∀ f ∈ pre, f.name ≠ "rbin") → t ≠ "" →
      fields = pre ++ ⟨"rbin", some t⟩ :: post →
      fsLookup fs (pastePath dir (sample_string rng ID_LENGTH)) ≠ some Entry.inaccessible →
      (handle_paste_submission dir fs rng fields hostHdr schemeHdr).1 =
        ⟨200, (schemeHdr.getD "http") ++ "://" ++ (hostHdr.getD "localhost") ++ "/" ++
          sample_string rng ID_LENGTH⟩) ∧
    (∀ pre post t, (∀ f ∈ pre, f.name ≠ "rbin") → t ≠ "" →
      fields = pre ++ ⟨"rbin", some t⟩ :: post →
      fsLookup fs (pastePath dir (sample_string rng ID_LENGTH)) = some Entry.inaccessible →
      (handle_paste_submission dir fs rng fields hostHdr schemeHdr).1.status = 500) := by
  refine ⟨fun hnone => ?_, fun pre post hpre heq => ?_,
    fun pre post t hpre ht heq hok => ?_, fun pre post t hpre ht heq hbad => ?_⟩
  · unfold handle_paste_submission
    rw [scanFields_missing fields hnone]
  · subst heq
    unfold handle_paste_submission
    rw [scanFields_found pre post (some "") hpre]
    rfl
  · subst heq
    have htb : (t == "") = false := by
      simp only [beq_eq_false_iff_ne, ne_eq]
      exact ht
    unfold handle_paste_submission
    rw [scanFields_found pre post (some t) hpre]
    simp only [htb, Bool.false_eq_true, if_false]
    unfold fsWrite
    cases hl : fsLookup fs (pastePath dir (sample_string rng ID_LENGTH)) with
    | none => simp
    | some e =>
        cases e with
        | file c => simp
        | inaccessible => exact absurd hl hok
  · subst heq
    have htb : (t == "") = false := by
      simp only [beq_eq_false_iff_ne, ne_eq]
      exact ht
    unfold handle_paste_submission
    rw [scanFields_found pre post (some t) hpre]
    simp only [htb, Bool.false_eq_true, if_false]
    unfold fsWrite
    rw [hbad]

/-- Witness for C7: a submission with no fields at all yields 400. -/
theorem C7_post_outcome_mapping_witness :
    (handle_paste_submission "pastes" [] (fun _ => 0) [] none none).1.status = 400 :=
  (C7_post_outcome_mapping "pastes" [] (fun _ => 0) [] none none).1 (by decide)

/-- Claim C8: the immutability invariant fails on the code.  With the
paste `"AAAAAA"` already storing `"first"`, a later submission whose
random draws regenerate the same identifier succeeds (the generator makes
no existence check and the write overwrites), after which reading
`"AAAAAA"` returns `"second"` — the content readable under an issued and
persisted identifier was changed by a later operation. -/
theorem C8_collision_overwrite_demo :
    (retrieve_paste "pastes" [(pastePath "pastes" "AAAAAA", Entry.file "first")]
        "AAAAAA").1 = ⟨200, "first"⟩ ∧
    sample_string (fun _ => 0) ID_LENGTH = "AAAAAA" ∧
    (handle_paste_submission "pastes"
        [(pastePath "pastes" "AAAAAA", Entry.file "first")]
        (fun _ => 0) [⟨"rbin", some "second"⟩] none none).1.status = 200 ∧
    (retrieve_paste "pastes"
        (handle_paste_submission "pastes"
          [(pastePath "pastes" "AAAAAA", Entry.file "first")]
          (fun _ => 0) [⟨"rbin", some "second"⟩] none none).2.1
        "AAAAAA").1 = ⟨200, "second"⟩ := by decide

/-- Claim C10: the handler consumes exactly the first `"rbin"` field.
Scanning a field list whose first `"rbin"` field has text `t` reads that
field's text, drains every differently named field before it, and produces
no event for any field after it; when the content is non-empty and the
write succeeds, the stored content is exactly `t`. -/
theorem C10_first_rbin_field_selected (dir : String) (fs : Fs) (rng : Nat → Nat)
    (hostHdr schemeHdr : Option String) (pre post : List Field) (t : String)
    (hpre : ∀ f ∈ pre, f.name ≠ "rbin") :
    scanFields (pre ++ ⟨"rbin", some t⟩ :: post) =
      (ScanOutcome.found t,
        pre.map (fun f => SubmitEvent.drained f.name) ++ [SubmitEvent.textRead "rbin"]) ∧
    (t ≠ "" →
      fsLookup fs (pastePath dir (sample_string rng ID_LENGTH)) ≠ some Entry.inaccessible →
      readToString
        (handle_paste_submission dir fs rng (pre ++ ⟨"rbin", some t⟩ :: post)
          hostHdr schemeHdr).2.1
        (pastePath dir (sample_string rng ID_LENGTH)) = Except.ok t) := by
  have hscan := scanFields_found pre post (some t) hpre
  refine ⟨hscan, fun ht hok => ?_⟩
  have htb : (t == "") = false := by
    simp only [beq_eq_false_iff_ne, ne_eq]
    exact ht
  unfold handle_paste_submission
  rw [hscan]
  simp only [htb, Bool.false_eq_true, if_false]
  unfold fsWrite
  cases hl : fsLookup fs (pastePath dir (sample_string rng ID_LENGTH)) with
  | none => simpa using readToString_after_write fs _ t
  | some e =>
      cases e with
      | file c => simpa using readToString_after_write fs _ t
      | inaccessible => exact absurd hl hok

/-- Witness for C10: with an ignored leading field and a trailing field,
the first `"rbin"` field's text is what gets stored. -/
theorem C10_first_rbin_field_selected_witness :
    readToString
      (handle_paste_submission "pastes" [] (fun _ => 0)
        ([⟨"other", some "1"⟩] ++ ⟨"rbin", some "hi"⟩ :: [⟨"rbin", some "later"⟩])
        none none).2.1
      (pastePath "pastes" (sample_string (fun _ => 0) ID_LENGTH)) = Except.ok "hi" :=
  (C10_first_rbin_field_selected "pastes" [] (fun _ => 0) none none
    [⟨"other", some "1"⟩] [⟨"rbin", some "later"⟩] "hi" (by decide)).2
    (by decide) (by decide)

end Rbin
